import Mathlib

/-!
# Verification of `pyaividgen.py`

Shallow embedding of the PyAiVidGen command-line script.  Pure fragments of
the script become Lean functions; the interactive prompts, provider calls and
the filesystem are passed in explicitly (`MainEnv`), and the observable
behaviour of a run is a trace of `Event`s.  Definitions are translated from
`src/pyaividgen.py`; line numbers in comments refer to that file.
-/

/-- Python truthiness of an optional string (`None` and `""` are falsy). -/
def optTruthy : Option String → Bool
  | none => false
  | some s => !(s == "")

/-! ## Python `str.replace` (lines 68 and 159: `text_file.replace('.txt', '.mp3')`)

Python's `str.replace(old, new)` replaces every non-overlapping occurrence of
`old`, scanning left to right.  The pattern is passed as head and tail
(`p0 :: pt`), which is faithful for the only pattern the script uses
(`".txt"`, nonempty).  The fuel argument is instantiated with the length of
the subject string, which bounds the recursion. -/
def replaceAllFuel (p0 : Char) (pt rep : List Char) : Nat → List Char → List Char
  | 0, s => s
  | _ + 1, [] => []
  | fuel + 1, c :: rest =>
    if (p0 :: pt).isPrefixOf (c :: rest) then
      rep ++ replaceAllFuel p0 pt rep fuel (List.drop pt.length rest)
    else
      c :: replaceAllFuel p0 pt rep fuel rest

/-- Python `s.replace(p0 :: pt, rep)` on character lists. -/
def pyReplaceList (p0 : Char) (pt rep s : List Char) : List Char :=
  replaceAllFuel p0 pt rep s.length s

/-- `text_file.replace('.txt', '.mp3')` (lines 68 and 159). -/
def mp3OutputFile (t : String) : String :=
  String.mk (pyReplaceList '.' ['t', 'x', 't'] ['.', 'm', 'p', '3'] t.data)

/-- Whether the pattern `pat` occurs in `s` starting at position `i`. -/
def matchAt (pat s : List Char) (i : Nat) : Bool :=
  pat.isPrefixOf (List.drop i s)

/-! ## Settings and command-line arguments -/

/-- The recognized keys of `settings.json`; `none` models an absent key
(`settings.get(key, default)` then yields the default). -/
structure Settings where
  user_message : Option String
  text_output_file : Option String
  default_image_output_folder : Option String
  default_num_images : Option Int
  max_num_images : Option Int
  default_music_file : Option String
  default_output_file : Option String
deriving DecidableEq

/-- Command-line input: for each flag, `some v` when the flag was supplied
with value `v`, `none` when it was omitted. -/
structure Cli where
  text_file : Option String
  music_file : Option String
  num_images : Option Int
  image_output_folder : Option String
  output_file : Option String
deriving DecidableEq

/-- The `args` object produced by the argument parser (lines 220-229):
`-t` has no default; the other flags default to the corresponding
settings values. -/
structure Args where
  text_file : Option String
  music_file : Option String
  num_images : Int
  image_output_folder : String
  output_file : Option String
deriving DecidableEq

/-- `parser.parse_args()` (lines 223-229). -/
def parseArgs (cli : Cli) (s : Settings) : Args :=
  { text_file := cli.text_file
    music_file := match cli.music_file with
      | some m => some m
      | none => s.default_music_file
    num_images := (cli.num_images).getD (s.default_num_images.getD 5)
    image_output_folder :=
      (cli.image_output_folder).getD (s.default_image_output_folder.getD "image_output")
    output_file := match cli.output_file with
      | some o => some o
      | none => s.default_output_file }

/-- Line 152: `args.text_file if args.text_file else
settings.get('text_output_file', 'text_output.txt')`. -/
def effectiveTextOutputFile (s : Settings) (args : Args) : String :=
  if optTruthy args.text_file then args.text_file.getD ""
  else s.text_output_file.getD "text_output.txt"

/-- Line 182: `args.image_output_folder if args.image_output_folder else
settings.get('default_image_output_folder', 'image_output')`. -/
def effectiveImageOutputFolder (s : Settings) (args : Args) : String :=
  if args.image_output_folder == "" then s.default_image_output_folder.getD "image_output"
  else args.image_output_folder

/-- The first operand of the `min` on line 196: `args.num_images if
args.num_images else settings.get('default_num_images', 5)`. -/
def effectiveRequestedNumImages (s : Settings) (args : Args) : Int :=
  if args.num_images == 0 then s.default_num_images.getD 5
  else args.num_images

/-- Line 196: `num_images = min(..., max_num_images)` with
`max_num_images = settings.get('max_num_images', 5)` (line 193). -/
def effectiveNumImages (s : Settings) (args : Args) : Int :=
  min (effectiveRequestedNumImages s args) (s.max_num_images.getD 5)

/-! ## Events and the environment of a run -/

/-- Observable actions of `main`: provider calls and file writes. -/
inductive Event
  | textGenCall
  | textWrite (path content : String)
  | ttsCall (text : String)
  | mp3Write (path : String)
  | promptGen (text : String) (numImages : Int)
deriving DecidableEq

/-- Everything `main` consumes from the outside world: the answers to the
interactive yes/no prompts, the outcomes of the provider calls, and the
text files on disk (an association list from path to content; a lookup
failure models `FileNotFoundError` / `os.path.exists` returning false). -/
structure MainEnv where
  wantsTextGen : Bool
  wantsTTS : Bool
  wantsImages : Bool
  textGenResult : Option String
  ttsOk : Bool
  files : List (String × String)
deriving DecidableEq

/-- The speech-synthesis events of a trace (speech requests and audio-file
writes). -/
def ttsEvents (tr : List Event) : List Event :=
  tr.filter fun e =>
    match e with
    | Event.ttsCall _ => true
    | Event.mp3Write _ => true
    | _ => false

/-- The text-generation events of a trace (completion requests and text-file
writes). -/
def textGenEvents (tr : List Event) : List Event :=
  tr.filter fun e =>
    match e with
    | Event.textGenCall => true
    | Event.textWrite _ _ => true
    | _ => false

/-- The text contents consumed by the downstream stages (speech synthesis and
image-prompt generation). -/
def consumedTexts (tr : List Event) : List String :=
  tr.filterMap fun e =>
    match e with
    | Event.ttsCall text => some text
    | Event.promptGen text _ => some text
    | _ => none

/-! ## The text stage of `main` (lines 150-172) -/

/-- The state after the text stage of `main`. -/
structure TextStageOut where
  events : List Event
  files : List (String × String)
  textFile : Option String
  textAvailable : Bool
  mp3Exists : Bool
deriving DecidableEq

/-- Lines 150-172: use the supplied text file (checking for a sibling mp3)
or optionally generate one.  Note that the mp3-existence check happens only
in the `args.text_file` branch, and that line 167 (`if generated_text:`)
treats an empty generated text as absent. -/
def textStage (s : Settings) (args : Args) (env : MainEnv) : TextStageOut :=
  if optTruthy args.text_file then
    { events := []
      files := env.files
      textFile := args.text_file
      textAvailable := true
      mp3Exists := (List.lookup (mp3OutputFile (args.text_file.getD "")) env.files).isSome }
  else if env.wantsTextGen then
    match env.textGenResult with
    | some g =>
      if g == "" then
        { events := [Event.textGenCall], files := env.files, textFile := args.text_file
          textAvailable := false, mp3Exists := false }
      else
        { events := [Event.textGenCall,
                     Event.textWrite (s.text_output_file.getD "text_output.txt") g]
          files := (s.text_output_file.getD "text_output.txt", g) :: env.files
          textFile := some (s.text_output_file.getD "text_output.txt")
          textAvailable := true
          mp3Exists := false }
    | none =>
      { events := [Event.textGenCall], files := env.files, textFile := args.text_file
        textAvailable := false, mp3Exists := false }
  else
    { events := [], files := env.files, textFile := args.text_file
      textAvailable := false, mp3Exists := false }

/-- Lines 174-179 together with `perform_text_to_speech_transformation`
(lines 63-79): read the text file, call the speech endpoint, stream the
audio to the sibling path; any failure is caught.  Returns the emitted
events and the filesystem after the stage. -/
def ttsStage (env : MainEnv) (st : TextStageOut) : List Event × List (String × String) :=
  if st.textAvailable && !st.mp3Exists then
    if env.wantsTTS then
      match List.lookup (st.textFile.getD "") st.files with
      | some text =>
        if env.ttsOk then
          ([Event.ttsCall text, Event.mp3Write (mp3OutputFile (st.textFile.getD ""))],
           (mp3OutputFile (st.textFile.getD ""), "audio") :: st.files)
        else
          ([Event.ttsCall text], st.files)
      | none => ([], st.files)
    else ([], st.files)
  else ([], st.files)

/-- Lines 188-216: the image part of `main`.  Reads the text from
`text_output_file` (computed on line 152, before line 169 could mutate
`args.text_file`) and hands it to `generate_image_prompts` together with
the capped image count of line 196.  A missing text file aborts the stage
(lines 199-204). -/
def imageStage (s : Settings) (args : Args) (env : MainEnv)
    (files : List (String × String)) : List Event :=
  if env.wantsImages then
    match List.lookup (effectiveTextOutputFile s args) files with
    | some textContent => [Event.promptGen textContent (effectiveNumImages s args)]
    | none => []
  else []

/-- `main(args)` (lines 149-216) as a trace of events. -/
def mainRun (s : Settings) (args : Args) (env : MainEnv) : List Event :=
  let st := textStage s args env
  let tts := ttsStage env st
  st.events ++ tts.1 ++ imageStage s args env tts.2

/-! ## Startup (lines 14-34) -/

/-- The observable outcome of the whole script. -/
structure ProgramOut where
  startupMessages : List String
  events : List Event
  exitCode : Option Nat
deriving DecidableEq

/-- Lines 14-34 followed by `main`: a falsy API key (absent or empty
environment variable) exits with status 1 before the client is built; an
unreadable `settings.json` (`read_settings` returning `None`) exits with
status 1; otherwise `main` runs. -/
def program (apiKey : Option String) (settingsFile : Option Settings)
    (cli : Cli) (env : MainEnv) : ProgramOut :=
  if optTruthy apiKey then
    match settingsFile with
    | some s =>
      { startupMessages := [], events := mainRun s (parseArgs cli s) env, exitCode := none }
    | none =>
      { startupMessages := ["settings.json file not found."], events := [], exitCode := some 1 }
  else
    { startupMessages := ["Error: OpenAI API key not found. Please check your .env file."]
      events := [], exitCode := some 1 }

/-! ## `generate_image_prompts` (lines 85-102)

The provider is modelled as a map from request index (0-based) to the
outcome of that completion request: `some p` is a successful response with
stripped content `p`, `none` is a raised exception.  The single `try` block
wraps the whole loop, so the first exception aborts the remaining
iterations and the prompts collected so far are returned.  The second
component counts the requests actually issued. -/
def promptsLoop (responses : Nat → Option String) (i : Nat) : Nat → List String × Nat
  | 0 => ([], 0)
  | n + 1 =>
    match responses i with
    | none => ([], 1)
    | some p =>
      let r := promptsLoop responses (i + 1) n
      (p :: r.1, r.2 + 1)

/-- `generate_image_prompts(text, num_prompts)`: `range(num_prompts)` is
empty for a non-positive count. -/
def generate_image_prompts (responses : Nat → Option String) (num_prompts : Int) :
    List String × Nat :=
  promptsLoop responses 0 num_prompts.toNat

/-! ## `empty_directory`, `generate_and_save_images`, `download_image`
(lines 104-147) -/

/-- An entry of the image output folder. -/
inductive Entry
  | file (name content : String)
  | dir (name : String)
deriving DecidableEq

/-- `empty_directory(folder_path)` (lines 141-147): files are removed,
subfolders are deleted recursively. -/
def empty_directory (items : List Entry) : List Entry :=
  items.filter fun it =>
    match it with
    | Entry.file _ _ => false
    | Entry.dir _ => false

/-- Outcome of the two provider calls for one prompt: the image-generation
request raises, the HTTP download raises or has an error status, or the
image bytes arrive. -/
inductive ImgOutcome
  | genFail
  | dlFail
  | ok (content : String)
deriving DecidableEq

/-- The console error message produced for prompt `i` (`none` when the
prompt succeeds): a generation failure is logged by the `except` on
line 126, a download failure by the `except` inside `download_image`
(line 138). -/
def perPromptLog (oc : ImgOutcome) (i : Nat) : Option String :=
  match oc with
  | ImgOutcome.genFail => some ("Error during image generation for prompt " ++ toString i)
  | ImgOutcome.dlFail => some "Error downloading image"
  | ImgOutcome.ok _ => none

/-- The `for i, prompt in enumerate(prompts, 1)` loop of
`generate_and_save_images` (lines 108-127): each iteration is wrapped in
its own `try`, and a successful download writes `image_{i}.png` into the
folder.  Returns the final folder contents and the per-prompt log. -/
def imagesLoop (outcomes : Nat → ImgOutcome) (i : Nat) :
    List String → List Entry → List Entry × List (Option String)
  | [], fs => (fs, [])
  | _ :: rest, fs =>
    let fs2 := match outcomes i with
      | ImgOutcome.ok c => fs ++ [Entry.file ("image_" ++ toString i ++ ".png") c]
      | _ => fs
    let r := imagesLoop outcomes (i + 1) rest fs2
    (r.1, perPromptLog (outcomes i) i :: r.2)

/-- `generate_and_save_images(prompts, image_output_folder)` (lines
104-127): the folder is emptied first, then each prompt is processed. -/
def generate_and_save_images (outcomes : Nat → ImgOutcome) (prompts : List String)
    (folder : List Entry) : List Entry × List (Option String) :=
  imagesLoop outcomes 1 prompts (empty_directory folder)

/-- The files a run of `generate_and_save_images` may legitimately leave in
the folder: `image_{j+1}.png` for a prompt index `j` below the prompt count
whose download succeeded with exactly that content. -/
def writtenThisRun (outcomes : Nat → ImgOutcome) (numPrompts : Nat) : Entry → Bool
  | Entry.dir _ => false
  | Entry.file name content =>
    (List.range numPrompts).any fun j =>
      decide (name = "image_" ++ toString (j + 1) ++ ".png" ∧
        outcomes (j + 1) = ImgOutcome.ok content)

/-- Outcome of `requests.get(image_url)` (line 131): a raised exception, or
a response with a status code and body. -/
inductive HttpResult
  | err
  | status (code : Nat) (content : String)
deriving DecidableEq

/-- Whether the guarded part of `download_image` raises before the file is
opened: `requests.get` raising, or `raise_for_status` raising on a 4xx/5xx
status. -/
def requestFails : HttpResult → Bool
  | HttpResult.err => true
  | HttpResult.status code _ => decide (400 ≤ code)

/-- `download_image(image_url, file_path)` (lines 129-139): the destination
file is opened for writing only after `raise_for_status` succeeds; a
`RequestException` is caught and logged.  Returns the filesystem (an
association list from path to content) and the console output. -/
def download_image (res : HttpResult) (files : List (String × String))
    (file_path : String) : List (String × String) × List String :=
  match res with
  | HttpResult.err => (files, ["Error downloading image"])
  | HttpResult.status code content =>
    if 400 ≤ code then
      (files, ["Error downloading image"])
    else
      ((file_path, content) :: files, ["Image downloaded and saved to " ++ file_path])

/-- Whether a consumed text is exactly the content of the file `t` in the
given filesystem. -/
def consumedFrom (t : String) (files : List (String × String)) (txt : String) : Bool :=
  decide (List.lookup t files = some txt)

/-! ## Concrete runs used to instantiate the theorems -/

/-- A settings file that only sets `text_output_file`. -/
def sC1x : Settings :=
  { user_message := none, text_output_file := some "story.txt"
    default_image_output_folder := none, default_num_images := none
    max_num_images := none, default_music_file := none, default_output_file := none }

/-- A run without `-t`: text generation succeeds while `story.mp3` already
exists on disk. -/
def envC1x : MainEnv :=
  { wantsTextGen := true, wantsTTS := true, wantsImages := false
    textGenResult := some "hello", ttsOk := true, files := [("story.mp3", "OLD")] }

/-- The parsed arguments of a run that supplies no flag, against `sC1x`. -/
def argsC1x : Args :=
  parseArgs { text_file := none, music_file := none, num_images := none
              image_output_folder := none, output_file := none } sC1x

/-- A run with `-t story.txt` whose sibling `story.mp3` already exists. -/
def envC1w : MainEnv :=
  { wantsTextGen := true, wantsTTS := true, wantsImages := true
    textGenResult := some "hello", ttsOk := true
    files := [("story.txt", "text"), ("story.mp3", "OLD")] }

/-- The parsed arguments of a `-t story.txt` run, against `sC1x`. -/
def argsC1w : Args :=
  parseArgs { text_file := some "story.txt", music_file := none, num_images := none
              image_output_folder := none, output_file := none } sC1x

/-- A provider for which the second image-prompt request raises. -/
def respC2 : Nat → Option String := fun j => if j = 1 then none else some ("p" ++ toString j)

/-- A provider for which every image-prompt request succeeds. -/
def respC4 : Nat → Option String := fun j => some ("p" ++ toString j)

/-- A settings file capping the image count at 3. -/
def sC4w : Settings :=
  { user_message := none, text_output_file := none
    default_image_output_folder := none, default_num_images := none
    max_num_images := some 3, default_music_file := none, default_output_file := none }

/-- The parsed arguments of a `-n 9` run, against `sC4w`. -/
def argsC4w : Args :=
  parseArgs { text_file := none, music_file := none, num_images := some 9
              image_output_folder := none, output_file := none } sC4w

/-- A settings file leaving every key absent. -/
def sNone : Settings :=
  { user_message := none, text_output_file := none
    default_image_output_folder := none, default_num_images := none
    max_num_images := none, default_music_file := none, default_output_file := none }

/-- A `-t ""` command line (the flag supplied with an empty value). -/
def cliC5x : Cli :=
  { text_file := some "", music_file := none, num_images := none
    image_output_folder := none, output_file := none }

/-- A run where the user confirms text generation and the provider returns
`"g"`. -/
def envC5x : MainEnv :=
  { wantsTextGen := true, wantsTTS := false, wantsImages := false
    textGenResult := some "g", ttsOk := false, files := [] }

/-- A `-t story.txt` run with the file present on disk and every stage
confirmed. -/
def envC5w : MainEnv :=
  { wantsTextGen := true, wantsTTS := true, wantsImages := true
    textGenResult := some "g", ttsOk := true, files := [("story.txt", "supplied text")] }

/-- The parsed arguments of a `-t story.txt` run, against `sNone`. -/
def argsC5w : Args :=
  parseArgs { text_file := some "story.txt", music_file := none, num_images := none
              image_output_folder := none, output_file := none } sNone

/-- An arbitrary command line for the startup theorem. -/
def cliC6w : Cli :=
  { text_file := none, music_file := none, num_images := none
    image_output_folder := none, output_file := none }

/-- An arbitrary environment for the startup theorem. -/
def envC6w : MainEnv :=
  { wantsTextGen := false, wantsTTS := false, wantsImages := false
    textGenResult := none, ttsOk := false, files := [] }

/-- An image run where the first download fails and the second succeeds. -/
def outcomesC7 : Nat → ImgOutcome := fun i =>
  if i = 1 then ImgOutcome.dlFail else ImgOutcome.ok "PNG"

/-- A settings file that sets `default_num_images` to 7. -/
def sC9x : Settings :=
  { user_message := none, text_output_file := none
    default_image_output_folder := some "settings_folder", default_num_images := some 7
    max_num_images := none, default_music_file := none, default_output_file := none }

/-- A `-n 0` command line (the flag supplied with value 0). -/
def cliC9x : Cli :=
  { text_file := none, music_file := none, num_images := some 0
    image_output_folder := none, output_file := none }

/-- A command line supplying every flag with a truthy value. -/
def cliC9w : Cli :=
  { text_file := some "cli.txt", music_file := some "cli.mp3", num_images := some 2
    image_output_folder := some "cli_folder", output_file := some "cli.mp4" }

/-! # Theorems -/

/-! ## Helper lemmas -/

theorem promptsLoop_issued_le (resp : Nat → Option String) :
    ∀ (n i : Nat), (promptsLoop resp i n).2 ≤ n := by
  intro n
  induction n with
  | zero => intro i; simp [promptsLoop]
  | succ n ih =>
    intro i
    cases h : resp i with
    | none => simp [promptsLoop, h]
    | some p =>
      simp only [promptsLoop, h]
      exact Nat.succ_le_succ (ih (i + 1))

theorem promptsLoop_spec (resp : Nat → Option String) :
    ∀ (m n i : Nat), m < n → (∀ j, j < m → (resp (i + j)).isSome = true) →
      resp (i + m) = none →
      promptsLoop resp i n = ((List.range m).filterMap (fun j => resp (i + j)), m + 1) := by
  intro m
  induction m with
  | zero =>
    intro n i hmn _ hfail
    match n, hmn with
    | n + 1, _ =>
      have h0 : resp i = none := by simpa using hfail
      simp [promptsLoop, h0]
  | succ m ih =>
    intro n i hmn hall hfail
    match n, hmn with
    | n + 1, hmn =>
      have h0 : (resp i).isSome = true := by simpa using hall 0 (Nat.succ_pos m)
      obtain ⟨p, hp⟩ := Option.isSome_iff_exists.mp h0
      have hall' : ∀ j, j < m → (resp (i + 1 + j)).isSome = true := by
        intro j hj
        have := hall (j + 1) (by omega)
        rwa [show i + (j + 1) = i + 1 + j by omega] at this
      have hfail' : resp (i + 1 + m) = none := by
        rwa [show i + (m + 1) = i + 1 + m by omega] at hfail
      have ih' := ih n (i + 1) (by omega) hall' hfail'
      have hrange : (List.range (m + 1)).filterMap (fun j => resp (i + j)) =
          p :: (List.range m).filterMap (fun j => resp (i + 1 + j)) := by
        rw [List.range_succ_eq_map, List.filterMap_cons, List.filterMap_map]
        have hcomp : ((fun j => resp (i + j)) ∘ Nat.succ) = fun j => resp (i + 1 + j) := by
          funext j
          simp only [Function.comp]
          rw [show i + Nat.succ j = i + 1 + j by omega]
        rw [hcomp]
        simp [hp]
      simp only [promptsLoop, hp, ih', hrange]

theorem filterMap_length_of_isSome {α β : Type} (f : α → Option β) :
    ∀ l : List α, (∀ x ∈ l, (f x).isSome = true) → (l.filterMap f).length = l.length := by
  intro l
  induction l with
  | nil => intro _; rfl
  | cons x xs ih =>
    intro h
    obtain ⟨y, hy⟩ := Option.isSome_iff_exists.mp (h x (List.mem_cons_self x xs))
    simp [List.filterMap_cons, hy, ih fun z hz => h z (List.mem_cons_of_mem x hz)]

/-! ## Claim C2 -/

/-- Claim C2: when the k-th image-prompt request (1-based) is the first to
raise, `generate_image_prompts` returns exactly the k-1 prompts collected
before the failure, in request order, and issues no request after the
failing one (k requests in total). -/
theorem generate_image_prompts_early_abort (resp : Nat → Option String) (N : Int) (k : Nat)
    (hk1 : 1 ≤ k) (hkN : (k : Int) ≤ N)
    (hbefore : ∀ j, j < k - 1 → (resp j).isSome = true)
    (hfail : resp (k - 1) = none) :
    (generate_image_prompts resp N).1 = (List.range (k - 1)).filterMap resp ∧
    (generate_image_prompts resp N).1.length = k - 1 ∧
    (generate_image_prompts resp N).2 = k := by
  have hm : k - 1 < N.toNat := by omega
  have hspec := promptsLoop_spec resp (k - 1) N.toNat 0 hm
    (fun j hj => by simpa using hbefore j hj) (by simpa using hfail)
  unfold generate_image_prompts
  rw [hspec]
  have hfun : (fun j => resp (0 + j)) = resp := by
    funext j; rw [Nat.zero_add]
  rw [hfun]
  refine ⟨rfl, ?_, by simp; omega⟩
  simp only
  rw [filterMap_length_of_isSome resp _ fun x hx => hbefore x (List.mem_range.mp hx)]
  exact List.length_range (k - 1)

/-- Witness for C2: with three requested prompts and the second request
raising, exactly one prompt is returned and two requests are issued. -/
theorem generate_image_prompts_early_abort_w :
    (generate_image_prompts respC2 3).1 = (List.range 1).filterMap respC2 ∧
    (generate_image_prompts respC2 3).1.length = 1 ∧
    (generate_image_prompts respC2 3).2 = 2 :=
  generate_image_prompts_early_abort respC2 3 2 (by decide) (by decide)
    (by decide) (by decide)

/-! ## Claim C4 -/

/-- Claim C4: when the requested image count exceeds the configured
`max_num_images`, the effective count is `min(requested, max_num_images)`,
i.e. the configured maximum, and `generate_image_prompts` issues at most
that many requests. -/
theorem num_images_capped (s : Settings) (args : Args) (v : Int)
    (resp : Nat → Option String)
    (hv : args.num_images = v) (hpos : 0 < v) (hmax : s.max_num_images.getD 5 < v) :
    effectiveNumImages s args = min v (s.max_num_images.getD 5) ∧
    effectiveNumImages s args = s.max_num_images.getD 5 ∧
    (generate_image_prompts resp (effectiveNumImages s args)).2 ≤
      (s.max_num_images.getD 5).toNat := by
  have hne : (args.num_images == 0) = false := by
    simp [hv]; omega
  have heff : effectiveNumImages s args = min v (s.max_num_images.getD 5) := by
    rw [effectiveNumImages, effectiveRequestedNumImages, hne, if_neg (by simp), hv]
  have hminmax : min v (s.max_num_images.getD 5) = s.max_num_images.getD 5 := by
    omega
  refine ⟨heff, heff.trans hminmax, ?_⟩
  calc (generate_image_prompts resp (effectiveNumImages s args)).2
      ≤ (effectiveNumImages s args).toNat := promptsLoop_issued_le resp _ 0
    _ ≤ (s.max_num_images.getD 5).toNat := by rw [heff, hminmax]

/-- Witness for C4: with `-n 9` against a configured maximum of 3, the
effective count is 3 and at most 3 prompt requests are issued. -/
theorem num_images_capped_w :
    effectiveNumImages sC4w argsC4w = min 9 (sC4w.max_num_images.getD 5) ∧
    effectiveNumImages sC4w argsC4w = sC4w.max_num_images.getD 5 ∧
    (generate_image_prompts respC4 (effectiveNumImages sC4w argsC4w)).2 ≤
      (sC4w.max_num_images.getD 5).toNat :=
  num_images_capped sC4w argsC4w 9 respC4 (by decide) (by decide) (by decide)

/-! ## Claim C6 -/

/-- Claim C6: with the API-key environment variable absent, or with
`settings.json` unreadable, the process prints one error message and
terminates with exit status 1, and the run's event trace is empty — in
particular no provider call is made before (or after) the exit. -/
theorem startup_exits_before_network (apiKey : Option String) (sf : Option Settings)
    (cli : Cli) (env : MainEnv) (h : apiKey = none ∨ sf = none) :
    (program apiKey sf cli env).exitCode = some 1 ∧
    (program apiKey sf cli env).startupMessages.length = 1 ∧
    (program apiKey sf cli env).events = [] := by
  rcases h with h | h
  · subst h
    simp [program, optTruthy]
  · subst h
    unfold program
    cases hk : optTruthy apiKey <;> simp

/-- Witness for C6: both startup failures at once. -/
theorem startup_exits_before_network_w :
    (program none none cliC6w envC6w).exitCode = some 1 ∧
    (program none none cliC6w envC6w).startupMessages.length = 1 ∧
    (program none none cliC6w envC6w).events = [] :=
  startup_exits_before_network none none cliC6w envC6w (Or.inl rfl)

/-! ## Claim C10 -/

/-- Claim C10: when `requests.get` raises or returns an error status,
`download_image` leaves the filesystem unchanged — the destination file is
neither created nor modified. -/
theorem download_image_no_write_on_failure (res : HttpResult)
    (files : List (String × String)) (path : String)
    (h : requestFails res = true) :
    (download_image res files path).1 = files := by
  cases res with
  | err => rfl
  | status code content =>
    have hc : 400 ≤ code := by simpa [requestFails] using h
    simp [download_image, if_pos hc]

/-- Witness for C10: a 404 response writes nothing. -/
theorem download_image_no_write_on_failure_w :
    (download_image (HttpResult.status 404 "not found") [("f", "y")] "img.png").1 =
      [("f", "y")] :=
  download_image_no_write_on_failure (HttpResult.status 404 "not found") [("f", "y")]
    "img.png" (by decide)

/-! ## Claim C3 -/

theorem imagesLoop_log (o : Nat → ImgOutcome) :
    ∀ (ps : List String) (i : Nat) (fs : List Entry),
      (imagesLoop o i ps fs).2 =
        (List.range ps.length).map fun j => perPromptLog (o (i + j)) (i + j) := by
  intro ps
  induction ps with
  | nil => intro i fs; simp [imagesLoop]
  | cons p rest ih =>
    intro i fs
    simp only [imagesLoop]
    rw [ih]
    simp only [List.length_cons, List.range_succ_eq_map, List.map_cons, List.map_map]
    congr 1
    apply List.map_congr_left
    intro j _
    simp only [Function.comp]
    rw [show i + Nat.succ j = i + 1 + j by omega]

/-- Claim C3: `generate_and_save_images` attempts every prompt — the
per-prompt log has one entry per prompt, and the entry for prompt `i`
depends only on that prompt's own generation/download outcome, so a
failure at one prompt never prevents the later prompts from being
attempted. -/
theorem generate_and_save_images_attempts_all (o : Nat → ImgOutcome)
    (prompts : List String) (folder : List Entry) :
    (generate_and_save_images o prompts folder).2 =
      ((List.range prompts.length).map fun j => perPromptLog (o (j + 1)) (j + 1)) ∧
    (generate_and_save_images o prompts folder).2.length = prompts.length := by
  have h := imagesLoop_log o prompts 1 (empty_directory folder)
  unfold generate_and_save_images
  rw [h]
  constructor
  · apply List.map_congr_left
    intro j _
    rw [Nat.add_comm 1 j]
  · simp

/-! ## Claim C7 -/

theorem imagesLoop_mem (o : Nat → ImgOutcome) :
    ∀ (ps : List String) (i : Nat) (fs : List Entry) (e : Entry),
      e ∈ (imagesLoop o i ps fs).1 →
      e ∈ fs ∨ ∃ j c,
        i ≤ j ∧ j < i + ps.length ∧ o j = ImgOutcome.ok c ∧
        e = Entry.file ("image_" ++ toString j ++ ".png") c := by
  intro ps
  induction ps with
  | nil => intro i fs e he; exact Or.inl (by simpa [imagesLoop] using he)
  | cons p rest ih =>
    intro i fs e he
    simp only [imagesLoop] at he
    cases hoc : o i with
    | ok c =>
      rw [hoc] at he
      rcases ih (i + 1) _ e he with hmem | ⟨j, c', hij, hjlt, hok, hee⟩
      · rcases List.mem_append.mp hmem with hfs | hnew
        · exact Or.inl hfs
        · refine Or.inr ⟨i, c, Nat.le_refl i, by simp, hoc, ?_⟩
          simpa using hnew
      · exact Or.inr ⟨j, c', by omega, by simp at hjlt ⊢; omega, hok, hee⟩
    | genFail =>
      rw [hoc] at he
      rcases ih (i + 1) _ e he with hmem | ⟨j, c', hij, hjlt, hok, hee⟩
      · exact Or.inl hmem
      · exact Or.inr ⟨j, c', by omega, by simp at hjlt ⊢; omega, hok, hee⟩
    | dlFail =>
      rw [hoc] at he
      rcases ih (i + 1) _ e he with hmem | ⟨j, c', hij, hjlt, hok, hee⟩
      · exact Or.inl hmem
      · exact Or.inr ⟨j, c', by omega, by simp at hjlt ⊢; omega, hok, hee⟩

/-- Claim C7: `generate_and_save_images` first empties the destination
folder completely (`empty_directory` removes every file and subfolder),
and consequently every entry of the folder after the run is an
`image_{i}.png` file written during that run. -/
theorem generate_and_save_images_fresh_folder (o : Nat → ImgOutcome)
    (prompts : List String) (folder : List Entry) :
    empty_directory folder = [] ∧
    (generate_and_save_images o prompts folder).1.all
      (writtenThisRun o prompts.length) = true := by
  have hempty : empty_directory folder = [] := by
    unfold empty_directory
    induction folder with
    | nil => rfl
    | cons a l ih => cases a <;> simpa [List.filter_cons] using ih
  refine ⟨hempty, ?_⟩
  rw [List.all_eq_true]
  intro e he
  unfold generate_and_save_images at he
  rw [hempty] at he
  rcases imagesLoop_mem o prompts 1 [] e he with hmem | ⟨j, c, h1j, hjlt, hok, hee⟩
  · exact absurd hmem (List.not_mem_nil e)
  · subst hee
    simp only [writtenThisRun]
    rw [List.any_eq_true]
    refine ⟨j - 1, List.mem_range.mpr (by omega), ?_⟩
    rw [decide_eq_true_eq, show j - 1 + 1 = j by omega]
    exact ⟨rfl, hok⟩

/-! ## Claim C8 -/

theorem replaceAllFuel_nil (p0 : Char) (pt rep : List Char) :
    ∀ fuel, replaceAllFuel p0 pt rep fuel [] = [] := by
  intro fuel
  cases fuel <;> rfl

theorem isPrefixOf_self {α : Type} [BEq α] [LawfulBEq α] :
    ∀ l : List α, l.isPrefixOf l = true := by
  intro l
  induction l with
  | nil => rfl
  | cons a l ih => simp [List.isPrefixOf, ih]

theorem replaceAllFuel_cons_neg (p0 : Char) (pt rep : List Char) (c : Char)
    (rest : List Char) (h : ((p0 :: pt).isPrefixOf (c :: rest)) = false) (fuel : Nat) :
    replaceAllFuel p0 pt rep (fuel + 1) (c :: rest) =
      c :: replaceAllFuel p0 pt rep fuel rest := by
  simp [replaceAllFuel, h]

theorem replaceAllFuel_suffix (p0 : Char) (pt rep : List Char) :
    ∀ st : List Char,
      (∀ i, i < st.length → matchAt (p0 :: pt) (st ++ (p0 :: pt)) i = false) →
      replaceAllFuel p0 pt rep (st ++ (p0 :: pt)).length (st ++ (p0 :: pt)) = st ++ rep := by
  intro st
  induction st with
  | nil =>
    intro _
    simp [replaceAllFuel, isPrefixOf_self, List.drop_length, replaceAllFuel_nil]
  | cons c st' ih =>
    intro h
    have h0 : ((p0 :: pt).isPrefixOf (c :: (st' ++ (p0 :: pt)))) = false := by
      simpa [matchAt] using h 0 (Nat.succ_pos st'.length)
    have h' : ∀ i, i < st'.length → matchAt (p0 :: pt) (st' ++ (p0 :: pt)) i = false := by
      intro i hi
      simpa [matchAt, List.drop_succ_cons] using h (i + 1) (Nat.succ_lt_succ hi)
    calc replaceAllFuel p0 pt rep ((c :: st') ++ (p0 :: pt)).length ((c :: st') ++ (p0 :: pt))
        = replaceAllFuel p0 pt rep ((st' ++ (p0 :: pt)).length + 1)
            (c :: (st' ++ (p0 :: pt))) := rfl
      _ = c :: replaceAllFuel p0 pt rep (st' ++ (p0 :: pt)).length (st' ++ (p0 :: pt)) :=
          replaceAllFuel_cons_neg p0 pt rep c _ h0 _
      _ = (c :: st') ++ rep := by rw [ih h', List.cons_append]

/-- Counterexample to claim C8 as stated: for the text path `a.txt.txt`,
the derived audio path is `a.mp3.mp3` (Python's `str.replace` substitutes
every occurrence of `.txt`), not the extension replacement `a.txt.mp3`. -/
theorem mp3_path_replaces_all_occurrences :
    mp3OutputFile "a.txt.txt" = "a.mp3.mp3" ∧
    ¬ mp3OutputFile "a.txt.txt" = "a.txt.mp3" := by
  decide

/-- Claim C8 (amended): the audio path is the text path with every
occurrence of the substring `.txt` replaced by `.mp3`; whenever the only
occurrence of `.txt` is the path's final four characters, this coincides
with replacing the final extension, i.e. the audio path is the sibling
`stem.mp3`. -/
theorem mp3_path_extension_replacement (st : List Char)
    (h : ∀ i, i < st.length →
      matchAt ['.', 't', 'x', 't'] (st ++ ['.', 't', 'x', 't']) i = false) :
    mp3OutputFile (String.mk (st ++ ['.', 't', 'x', 't'])) =
      String.mk (st ++ ['.', 'm', 'p', '3']) := by
  unfold mp3OutputFile pyReplaceList
  exact congrArg String.mk
    (replaceAllFuel_suffix '.' ['t', 'x', 't'] ['.', 'm', 'p', '3'] st h)

/-- Witness for C8: the path `story.txt` maps to its sibling `story.mp3`. -/
theorem mp3_path_extension_replacement_w :
    mp3OutputFile (String.mk (['s', 't', 'o', 'r', 'y'] ++ ['.', 't', 'x', 't'])) =
      String.mk (['s', 't', 'o', 'r', 'y'] ++ ['.', 'm', 'p', '3']) :=
  mp3_path_extension_replacement ['s', 't', 'o', 'r', 'y'] (by decide)

/-! ## Lemmas about the stages of `main` -/

theorem optTruthy_some {t : String} (h : t ≠ "") : optTruthy (some t) = true := by
  simp [optTruthy, h]

theorem ttsEvents_nil : ttsEvents [] = [] := rfl

theorem ttsEvents_append (a b : List Event) :
    ttsEvents (a ++ b) = ttsEvents a ++ ttsEvents b := by
  simp [ttsEvents]

theorem textGenEvents_nil : textGenEvents [] = [] := rfl

theorem textGenEvents_append (a b : List Event) :
    textGenEvents (a ++ b) = textGenEvents a ++ textGenEvents b := by
  simp [textGenEvents]

theorem consumedTexts_append (a b : List Event) :
    consumedTexts (a ++ b) = consumedTexts a ++ consumedTexts b := by
  simp [consumedTexts]

theorem ttsEvents_imageStage (s : Settings) (args : Args) (env : MainEnv)
    (files : List (String × String)) : ttsEvents (imageStage s args env files) = [] := by
  unfold imageStage
  repeat' split
  all_goals simp [ttsEvents]

theorem textGenEvents_imageStage (s : Settings) (args : Args) (env : MainEnv)
    (files : List (String × String)) : textGenEvents (imageStage s args env files) = [] := by
  unfold imageStage
  repeat' split
  all_goals simp [textGenEvents]

theorem ttsStage_textGenEvents (env : MainEnv) (st : TextStageOut) :
    textGenEvents (ttsStage env st).1 = [] := by
  unfold ttsStage
  repeat' split
  all_goals simp [textGenEvents]

theorem ttsStage_consumed (env : MainEnv) (st : TextStageOut) :
    ∀ txt ∈ consumedTexts (ttsStage env st).1,
      List.lookup (st.textFile.getD "") st.files = some txt := by
  unfold ttsStage
  repeat' split
  all_goals intro txt hmem
  all_goals simp_all [consumedTexts]

theorem ttsStage_lookup_self (env : MainEnv) (t : String) :
    List.lookup t (ttsStage env
      ⟨[], env.files, some t, true,
        (List.lookup (mp3OutputFile t) env.files).isSome⟩).2 =
    List.lookup t env.files := by
  cases hM : (List.lookup (mp3OutputFile t) env.files).isSome with
  | true => simp [ttsStage]
  | false =>
    cases henv : env.wantsTTS with
    | false => simp [ttsStage, henv]
    | true =>
      cases hlk : List.lookup t env.files with
      | none => simp [ttsStage, henv, hlk]
      | some text =>
        cases hok : env.ttsOk with
        | false => simp [ttsStage, henv, hlk, hok]
        | true =>
          have hne : (t == mp3OutputFile t) = false := by
            apply beq_eq_false_iff_ne.mpr
            intro hh
            rw [← hh, hlk] at hM
            simp at hM
          simp [ttsStage, henv, hlk, hok, List.lookup, hne]

theorem imageStage_consumed (s : Settings) (args : Args) (env : MainEnv)
    (files : List (String × String)) :
    ∀ txt ∈ consumedTexts (imageStage s args env files),
      List.lookup (effectiveTextOutputFile s args) files = some txt := by
  unfold imageStage
  repeat' split
  all_goals intro txt hmem
  all_goals simp_all [consumedTexts]

/-! ## Claim C1 -/

/-- Counterexample to claim C1 as stated: in a run without `-t` where the
text is generated (to `story.txt`) and the sibling `story.mp3` already
exists on disk, the speech-synthesis stage is nevertheless invoked and
overwrites `story.mp3` — the existence check only happens in the
`args.text_file` branch of `main`. -/
theorem main_tts_overwrites_after_generation :
    List.lookup "story.mp3" envC1x.files = some "OLD" ∧
    ttsEvents (mainRun sC1x argsC1x envC1x) =
      [Event.ttsCall "hello", Event.mp3Write "story.mp3"] := by
  decide

/-- Claim C1 (amended): when the text file is supplied via `-t` (with a
truthy path) and its derived sibling mp3 path exists on disk, the
speech-synthesis stage is skipped — the run makes no speech request and
writes no audio file, so the existing file is not overwritten.  (When the
text file is instead produced by the text-generation stage, no such check
is performed; see the counterexample.) -/
theorem main_skips_tts_for_supplied_text (s : Settings) (args : Args) (env : MainEnv)
    (t : String) (ht : args.text_file = some t) (hne : t ≠ "")
    (hmp3 : (List.lookup (mp3OutputFile t) env.files).isSome = true) :
    ttsEvents (mainRun s args env) = [] := by
  have htr : optTruthy (some t) = true := optTruthy_some hne
  have hst : textStage s args env = ⟨[], env.files, args.text_file, true, true⟩ := by
    simp [textStage, htr, ht, hmp3]
  have htts : ttsStage env ⟨[], env.files, args.text_file, true, true⟩ = ([], env.files) := by
    simp [ttsStage]
  simp only [mainRun, hst, htts]
  simp [ttsEvents_append, ttsEvents_nil, ttsEvents_imageStage]

/-- Witness for C1: a `-t story.txt` run with `story.mp3` present performs
no speech synthesis. -/
theorem main_skips_tts_for_supplied_text_w :
    ttsEvents (mainRun sC1x argsC1w envC1w) = [] :=
  main_skips_tts_for_supplied_text sC1x argsC1w envC1w "story.txt" (by decide) (by decide)
    (by decide)

/-! ## Claim C5 -/

/-- Counterexample to claim C5 as stated: when `-t` is supplied with the
empty string, line 154's truthiness test fails and the text-generation
stage runs anyway (a completion request is made and the text file is
written). -/
theorem main_generates_despite_empty_text_flag :
    (parseArgs cliC5x sNone).text_file = some "" ∧
    textGenEvents (mainRun sNone (parseArgs cliC5x sNone) envC5x) =
      [Event.textGenCall, Event.textWrite "text_output.txt" "g"] := by
  decide

/-- Claim C5 (amended): when `-t` is supplied with a truthy (nonempty) path,
the text-generation stage is never invoked — no completion request is made
and no text file is written — and every text consumed downstream (by
speech synthesis and by image-prompt generation) is exactly the supplied
file's content on disk. -/
theorem main_supplied_text_skips_generation (s : Settings) (args : Args) (env : MainEnv)
    (t : String) (ht : args.text_file = some t) (hne : t ≠ "") :
    textGenEvents (mainRun s args env) = [] ∧
    ((consumedTexts (mainRun s args env)).all (consumedFrom t env.files)) = true := by
  have htr : optTruthy (some t) = true := optTruthy_some hne
  have hst : textStage s args env =
      ⟨[], env.files, some t, true, (List.lookup (mp3OutputFile t) env.files).isSome⟩ := by
    simp [textStage, htr, ht]
  have htof : effectiveTextOutputFile s args = t := by
    simp [effectiveTextOutputFile, ht, htr]
  simp only [mainRun, hst]
  constructor
  · simp [textGenEvents_append, textGenEvents_nil, ttsStage_textGenEvents,
      textGenEvents_imageStage]
  · rw [List.all_eq_true]
    intro txt hmem
    simp only [consumedTexts_append, List.mem_append] at hmem
    rw [consumedFrom, decide_eq_true_eq]
    rcases hmem with (hmem | hmem) | hmem
    · simp [consumedTexts] at hmem
    · have h := ttsStage_consumed env
        ⟨[], env.files, some t, true, (List.lookup (mp3OutputFile t) env.files).isSome⟩
        txt hmem
      simpa using h
    · have h := imageStage_consumed s args env _ txt hmem
      rw [htof] at h
      rwa [ttsStage_lookup_self env t] at h

/-- Witness for C5: a `-t story.txt` run with the file on disk generates no
text and consumes exactly the file's content. -/
theorem main_supplied_text_skips_generation_w :
    textGenEvents (mainRun sNone argsC5w envC5w) = [] ∧
    ((consumedTexts (mainRun sNone argsC5w envC5w)).all
      (consumedFrom "story.txt" envC5w.files)) = true :=
  main_supplied_text_skips_generation sNone argsC5w envC5w "story.txt" (by decide)
    (by decide)

/-! ## Claim C9 -/

/-- Counterexample to claim C9 as stated: with `-n 0` supplied and
`default_num_images` set to 7 in the settings, the effective requested
image count is 7, not the supplied 0 — line 196 re-applies Python
truthiness, so a supplied 0 (or empty string) does not override the
settings value. -/
theorem cli_zero_does_not_override :
    cliC9x.num_images = some 0 ∧
    effectiveRequestedNumImages sC9x (parseArgs cliC9x sC9x) = 7 ∧
    ¬ effectiveRequestedNumImages sC9x (parseArgs cliC9x sC9x) = 0 := by
  decide

/-- Claim C9 (amended): independently for each flag, a flag supplied with a
truthy value (a nonzero count, a nonempty path) overrides the
corresponding settings value in the effective run options; `-m` and `-o`
are overridden at the parser level for any supplied value. -/
theorem cli_truthy_overrides (cli : Cli) (s : Settings) :
    (∀ v : Int, cli.num_images = some v → v ≠ 0 →
      effectiveRequestedNumImages s (parseArgs cli s) = v) ∧
    (∀ f : String, cli.image_output_folder = some f → f ≠ "" →
      effectiveImageOutputFolder s (parseArgs cli s) = f) ∧
    (∀ t : String, cli.text_file = some t → t ≠ "" →
      effectiveTextOutputFile s (parseArgs cli s) = t) ∧
    (∀ m : String, cli.music_file = some m → (parseArgs cli s).music_file = some m) ∧
    (∀ o : String, cli.output_file = some o → (parseArgs cli s).output_file = some o) := by
  refine ⟨?_, ?_, ?_, ?_, ?_⟩
  · intro v hv hv0
    simp [effectiveRequestedNumImages, parseArgs, hv, hv0]
  · intro f hf hf0
    simp [effectiveImageOutputFolder, parseArgs, hf, hf0]
  · intro t ht ht0
    simp [effectiveTextOutputFile, parseArgs, ht, optTruthy, ht0]
  · intro m hm
    simp [parseArgs, hm]
  · intro o ho
    simp [parseArgs, ho]

/-- Witness for C9: every flag supplied with a truthy value ends up in the
effective options (each conjunct applied with only its own flag's
hypotheses). -/
theorem cli_truthy_overrides_w :
    effectiveRequestedNumImages sC9x (parseArgs cliC9w sC9x) = 2 ∧
    effectiveImageOutputFolder sC9x (parseArgs cliC9w sC9x) = "cli_folder" ∧
    effectiveTextOutputFile sC9x (parseArgs cliC9w sC9x) = "cli.txt" ∧
    (parseArgs cliC9w sC9x).music_file = some "cli.mp3" ∧
    (parseArgs cliC9w sC9x).output_file = some "cli.mp4" :=
  ⟨(cli_truthy_overrides cliC9w sC9x).1 2 rfl (by decide),
   (cli_truthy_overrides cliC9w sC9x).2.1 "cli_folder" rfl (by decide),
   (cli_truthy_overrides cliC9w sC9x).2.2.1 "cli.txt" rfl (by decide),
   (cli_truthy_overrides cliC9w sC9x).2.2.2.1 "cli.mp3" rfl,
   (cli_truthy_overrides cliC9w sC9x).2.2.2.2 "cli.mp4" rfl⟩
